import Mathlib

/-!
Shallow embedding of `install_dst.py` (SimpfunDstScript): the update
orchestration core of a dedicated-server installer driving SteamCMD.
Pure data and control flow are translated directly from the source;
filesystem, subprocess and network effects are passed in explicitly as
environment values (manifest contents, subprocess outcomes, disk probe
results).
-/

/- ===== Constants (source lines 23-35) ===== -/

def APP_ID : String := "343050"

def MAX_RETRIES : Nat := 5

def RETRY_DELAY : Nat := 10

def MIN_DISK_SPACE_MB : Nat := 2048

def ERR_UNKNOWN : String := "ERR_UNKNOWN"

def ERR_DEPENDENCY : String := "ERR_DEPENDENCY"

def ERR_NETWORK : String := "ERR_NETWORK"

def ERR_DISK : String := "ERR_DISK"

def ERR_PERMISSION : String := "ERR_PERMISSION"

def ERR_STEAMCMD : String := "ERR_STEAMCMD"

/-- The success marker string checked at source line 187:
`Success! App '343050' fully installed` (apostrophes built from code 39). -/
def SUCCESS_MARKER : String :=
  "Success! App " ++ String.singleton (Char.ofNat 39) ++ APP_ID
    ++ String.singleton (Char.ofNat 39) ++ " fully installed"

/- ===== String utilities mirroring Python primitives ===== -/

/-- Python `str.strip()`: drop surrounding whitespace (source line 171). -/
def stripLine (s : String) : String :=
  ⟨((s.toList.dropWhile Char.isWhitespace).reverse.dropWhile Char.isWhitespace).reverse⟩

/-- Does `pat` occur at the head of `s`? (helper for substring search). -/
def startsWithL : List Char → List Char → Bool
  | [], _ => true
  | _ :: _, [] => false
  | a :: as, b :: bs => a == b && startsWithL as bs

/-- Scan every suffix for an occurrence of `needle` (helper). -/
def hasSubL (needle : List Char) : List Char → Bool
  | [] => startsWithL needle []
  | c :: cs => startsWithL needle (c :: cs) || hasSubL needle cs

/-- Python `needle in hay` on strings. -/
def strContains (hay needle : String) : Bool :=
  hasSubL needle.toList hay.toList

/-- Match a literal at the head of the input, returning the remainder. -/
def matchLitL : List Char → List Char → Option (List Char)
  | [], s => some s
  | a :: as, b :: bs => if a == b then matchLitL as bs else none
  | _ :: _, [] => none

/-- Regex `\s+`: one or more whitespace characters (maximal munch; all
continuations in the source patterns begin with a non-whitespace literal,
so maximal munch is equivalent to the backtracking semantics). -/
def takeSpaces1 : List Char → Option (List Char)
  | [] => none
  | c :: cs =>
    if c.isWhitespace then some ((c :: cs).dropWhile Char.isWhitespace) else none

/-- Regex `\d+`: one or more digits, returning (digits, remainder).
All continuations in the source patterns begin with a non-digit literal,
so maximal munch is equivalent to the backtracking semantics. -/
def takeDigits (s : List Char) : Option (List Char × List Char) :=
  let ds := s.takeWhile Char.isDigit
  if ds.isEmpty then none else some (ds, s.dropWhile Char.isDigit)

/-- Digits-to-number, Python `int(...)` on a digit string. -/
def digitsToNat (ds : List Char) : Nat :=
  ds.foldl (fun n c => n * 10 + (c.toNat - 48)) 0

def openBrace : Char := Char.ofNat 123

def closeBrace : Char := Char.ofNat 125

/- ===== Progress regex (source line 153):
`progress:\s+\d+\.\d+\s+\(\d+\s+/\s+(\d+)\)` ===== -/

/-- Attempt the progress pattern anchored at the head of the input,
returning the captured group as a number. -/
def matchProgressAt (s : List Char) : Option Nat :=
  (matchLitL "progress:".toList s).bind fun r1 =>
  (takeSpaces1 r1).bind fun r2 =>
  (takeDigits r2).bind fun d1 =>
  (matchLitL ['.'] d1.2).bind fun r3 =>
  (takeDigits r3).bind fun d2 =>
  (takeSpaces1 d2.2).bind fun r4 =>
  (matchLitL ['('] r4).bind fun r5 =>
  (takeDigits r5).bind fun d3 =>
  (takeSpaces1 d3.2).bind fun r6 =>
  (matchLitL ['/'] r6).bind fun r7 =>
  (takeSpaces1 r7).bind fun r8 =>
  (takeDigits r8).bind fun cap =>
  (matchLitL [')'] cap.2).map fun _ => digitsToNat cap.1

/-- `re.search` of the progress pattern: leftmost occurrence. -/
def searchProgressL : List Char → Option Nat
  | [] => none
  | c :: cs =>
    match matchProgressAt (c :: cs) with
    | some n => some n
    | none => searchProgressL cs

/- ===== Buildid regex (source lines 121 and 136):
`"buildid"\s+"(\d+)"` ===== -/

/-- Attempt the buildid pattern anchored at the head, returning the
captured digit group. -/
def matchBuildidAt (s : List Char) : Option (List Char) :=
  (matchLitL "\"buildid\"".toList s).bind fun r1 =>
  (takeSpaces1 r1).bind fun r2 =>
  (matchLitL ['"'] r2).bind fun r3 =>
  (takeDigits r3).bind fun cap =>
  (matchLitL ['"'] cap.2).map fun _ => cap.1

/-- `re.search` of the buildid pattern: leftmost occurrence. -/
def searchBuildidL : List Char → Option (List Char)
  | [] => none
  | c :: cs =>
    match matchBuildidAt (c :: cs) with
    | some d => some d
    | none => searchBuildidL cs

/- ===== Public-branch block regex (source line 134):
`"branches"\s*\{.*?"public"\s*\{(.*?)\}` with DOTALL ===== -/

/-- Match literal, then `\s*`, then an opening brace, returning the
remainder (the shape shared by both stages of the block pattern). -/
def matchLitSpaceBrace (lit : List Char) (s : List Char) : Option (List Char) :=
  (matchLitL lit s).bind fun r =>
  matchLitL [openBrace] (r.dropWhile Char.isWhitespace)

/-- Leftmost occurrence of `lit` followed by `\s*` and an opening brace.
Scanning every suffix reproduces the regex backtracking search. -/
def scanLitBrace (lit : List Char) : List Char → Option (List Char)
  | [] => none
  | c :: cs =>
    match matchLitSpaceBrace lit (c :: cs) with
    | some r => some r
    | none => scanLitBrace lit cs

/-- Lazy capture `(.*?)\}`: everything up to the first closing brace. -/
def takeUntilClose : List Char → Option (List Char)
  | [] => none
  | c :: cs =>
    if c == closeBrace then some []
    else (takeUntilClose cs).map (fun r => c :: r)

/-- The two-stage isolation of the first public-branch block: first the
`"branches"` block opener, then (non-greedy, so first) the `"public"`
block opener within it, then capture to the first closing brace.
If the close brace is missing after the first public opener it is missing
after every later one too, so returning `none` without further
backtracking agrees with the regex semantics. -/
def extract_public_block (s : List Char) : Option (List Char) :=
  (scanLitBrace "\"branches\"".toList s).bind fun r1 =>
  (scanLitBrace "\"public\"".toList r1).bind fun r2 =>
  takeUntilClose r2

/- ===== VersionOracle (source lines 117-139) ===== -/

/-- `get_local_version` (source lines 117-123). The manifest state is
passed in: `none` models a file that is absent or whose read raised
(both paths return "0" in the source); `some contents` a readable file. -/
def get_local_version (manifest : Option String) : String :=
  match manifest with
  | none => "0"
  | some contents =>
    match searchBuildidL contents.toList with
    | some ds => String.mk ds
    | none => "0"

/-- Outcome of the `steamcmd +app_info_print` subprocess call: either an
exception (timeout included), or a completed run with its exit code and
combined stdout/stderr text. -/
inductive QueryOutcome where
  | exn
  | ran (returncode : Int) (stdout : String)

/-- The two-stage extraction from `get_remote_version` (lines 134-137):
isolate the first public-branch block, then match buildid within it. -/
def extract_public_buildid (out : String) : Option String :=
  (extract_public_block out.toList).bind fun blk =>
  (searchBuildidL blk).map String.mk

/-- `get_remote_version` (source lines 125-139).
The `subprocess.run` call uses `check=False`, so the exit code of a
completed run is never inspected; only an exception (e.g. the 60s
timeout) yields `none` directly. -/
def get_remote_version : QueryOutcome → Option String
  | .exn => none
  | .ran _ out => extract_public_buildid out

/- ===== Error values and disk check (source lines 81-89) ===== -/

/-- An `OSError(code, msg)` as raised by this script: a two-string pair. -/
structure PyError where
  code : String
  msg : String
deriving DecidableEq

/-- The body of `_check_disk_space`s try block (source lines 85-87):
raise `ERR_DISK` when the probed free bytes fall below the floor. -/
def check_disk_space_body (free : Nat) : Except PyError Unit :=
  if free / (1024 * 1024) < MIN_DISK_SPACE_MB then
    .error ⟨ERR_DISK, "Insufficient disk space. Free: "
      ++ toString (free / 1024 / 1024) ++ "MB"⟩
  else .ok ()

/-- `_check_disk_space` (source lines 81-89). `probe = none` models
`shutil.disk_usage` itself raising; `some free` a successful probe.
The bare `except: pass` at lines 88-89 wraps the whole try block, so it
swallows the `OSError` raised at line 87 as well: the function always
falls through. -/
def check_disk_space (probe : Option Nat) : Except PyError Unit :=
  match probe with
  | none => .ok ()
  | some free =>
    match check_disk_space_body free with
    | .error _ => .ok ()
    | .ok _ => .ok ()

/- ===== RetryingInstaller (source lines 141-201) ===== -/

/-- Outcome of one `subprocess.Popen` attempt: either launching/streaming
raised (message = Python `str(e)`), or the process ran to completion
producing its output lines and exit code. -/
inductive AttemptOutcome where
  | exn (msg : String)
  | ran (lines : List String) (returncode : Int)

/-- Observable events of `run_update_process`: a subprocess launch
(line 162) and a `time.sleep` of a given duration (line 198). -/
inductive Event where
  | launch
  | sleep (secs : Nat)
deriving DecidableEq

/-- Per-line progress accumulation (source lines 174-179): on a line
containing "downloading", search the progress pattern; a parsed total
replaces the stored one only when strictly larger. -/
def consumeLine (total : Nat) (line : String) : Nat :=
  if strContains line "downloading" then
    match searchProgressL line.toList with
    | some n => if n > total then n else total
    | none => total
  else total

/-- `full_log` (source line 185): stripped lines joined by newlines. -/
def attemptLog (lines : List String) : String :=
  String.intercalate "\n" (lines.map stripLine)

/-- The byte total after consuming one attempt's stripped lines. -/
def attemptTotal (t : Nat) (lines : List String) : Nat :=
  (lines.map stripLine).foldl consumeLine t

/-- Result of one loop iteration: success breaks the loop; a failure
either raised an exception (then line 198 sleeps) or merely set
`last_error` (no exception, no sleep). -/
inductive StepResult where
  | success (total : Nat)
  | failNoExn (total : Nat) (lastError : String)
  | failExn (total : Nat) (lastError : String)

/-- Python `str(OSError(code, msg))`. -/
def osErrorStr (code msg : String) : String :=
  "[Errno " ++ code ++ "] " ++ msg

/-- One iteration of the retry loop body (source lines 161-198); the
source's local variables `full_log` and the updated byte total are the
inlined `attemptLog`/`attemptTotal` applications. -/
def runAttempt (t : Nat) : AttemptOutcome → StepResult
  | .exn msg => .failExn t msg
  | .ran lines rc =>
    if rc == 0 && strContains (attemptLog lines) SUCCESS_MARKER then
      .success (attemptTotal t lines)
    else if strContains (attemptLog lines) "0x202" then
      .failExn (attemptTotal t lines)
        (osErrorStr ERR_NETWORK "Rate Limit/Network (0x202)")
    else if strContains (attemptLog lines) "0x6" then
      .failExn (attemptTotal t lines)
        (osErrorStr ERR_DISK "Disk Write Fail (0x6)")
    else
      .failNoExn (attemptTotal t lines)
        ("SteamCMD failed (Code " ++ toString rc ++ ")")

/-- Output of the retry loop: the raised/returned result, the final
`download_total_bytes`, and the ordered launch/sleep events. -/
structure LoopOut where
  res : Except PyError Unit
  total : Nat
  events : List Event

/-- The retry loop (source lines 158-201), recursing on remaining
attempts; `i` is the 1-based attempt counter, `le` the running
`last_error`. When the fuel runs out without success, line 201 raises
`OSError(ERR_STEAMCMD, last_error)`. -/
def runLoop (attempts : Nat → AttemptOutcome) :
    Nat → Nat → Nat → String → LoopOut
  | 0, _, t, le => ⟨.error ⟨ERR_STEAMCMD, le⟩, t, []⟩
  | k + 1, i, t, _le =>
    match runAttempt t (attempts i) with
    | .success t2 => ⟨.ok (), t2, [.launch]⟩
    | .failNoExn t2 le2 =>
      let rest := runLoop attempts k (i + 1) t2 le2
      ⟨rest.res, rest.total, .launch :: rest.events⟩
    | .failExn t2 le2 =>
      let rest := runLoop attempts k (i + 1) t2 le2
      ⟨rest.res, rest.total, .launch :: .sleep RETRY_DELAY :: rest.events⟩

/-- `run_update_process` (source lines 141-201): disk check, then the
retry loop starting from the current `download_total_bytes` value `t0`. -/
def run_update_process (probe : Option Nat) (attempts : Nat → AttemptOutcome)
    (t0 : Nat) : LoopOut :=
  match check_disk_space probe with
  | .error e => ⟨.error e, t0, []⟩
  | .ok _ => runLoop attempts MAX_RETRIES 1 t0 ""

/- ===== UpdateOrchestrator: execute (source lines 203-254) ===== -/

/-- Environment of one `execute` invocation: the force flag, the manifest
contents before and after the install, the remote-query outcome, the
disk probe, and the per-attempt subprocess outcomes. -/
structure ExecEnv where
  force : Bool
  manifestBefore : Option String
  query : QueryOutcome
  probe : Option Nat
  attempts : Nat → AttemptOutcome
  manifestAfter : Option String

/-- The success payload assembled at source lines 229-247 (the fields the
spec claims are about). -/
structure SuccessOutcome where
  state : String
  old_version : String
  new_version : String
  remote_version : String
  total_bytes : Nat
deriving DecidableEq

/-- The should-update decision (source lines 209-217). -/
def should_update_flag (force : Bool) (old_ver : String)
    (remote_ver : Option String) : Bool :=
  if force then true
  else match remote_ver with
    | none => true
    | some r => old_ver != r

/-- Python `x or dflt` on an optional string (source line 235):
`None` and the empty string are both falsy. -/
def pyOr (v : Option String) (dflt : String) : String :=
  match v with
  | none => dflt
  | some s => if s == "" then dflt else s

/-- `execute` (source lines 203-254), up to the success/error payload and
the event trace. `download_total_bytes` starts at 0 (line 67); the
source's local variables `old_ver`, `remote_ver`, `new_ver` and `status`
are inlined (all the producing calls are pure in this embedding). -/
def execute (env : ExecEnv) : Except PyError SuccessOutcome × List Event :=
  if should_update_flag env.force (get_local_version env.manifestBefore)
      (get_remote_version env.query) then
    match (run_update_process env.probe env.attempts 0).res with
    | .error e => (.error e, (run_update_process env.probe env.attempts 0).events)
    | .ok _ =>
      (.ok ⟨(if get_local_version env.manifestBefore == "0" then
          "fresh_installed" else "updated"),
        get_local_version env.manifestBefore,
        get_local_version env.manifestAfter,
        pyOr (get_remote_version env.query) "unknown",
        (run_update_process env.probe env.attempts 0).total⟩,
        (run_update_process env.probe env.attempts 0).events)
  else
    (.ok ⟨"up_to_date", get_local_version env.manifestBefore,
      get_local_version env.manifestBefore,
      pyOr (get_remote_version env.query) "unknown", 0⟩, [])

/- ===== Error normalization in execute (source lines 249-252) ===== -/

/-- A Python value appearing in `OSError.args`: the script raises string
codes, the operating system raises integer errno values. -/
inductive PyVal where
  | s (v : String)
  | n (v : Int)
deriving DecidableEq

/-- The `except OSError` normalization (source lines 249-252): when the
error carries more than one arg, `args[0]`/`args[1]` become the reported
code/message pair; otherwise `ERR_UNKNOWN` with `str(e)`. -/
def execute_error_payload (args : List PyVal) (strForm : String) :
    PyVal × PyVal :=
  if args.length > 1 then (args.getD 0 (.s ""), args.getD 1 (.s ""))
  else (.s ERR_UNKNOWN, .s strForm)

/-- The closed error taxonomy (source lines 30-35). -/
def ERROR_CLASSES : List String :=
  [ERR_UNKNOWN, ERR_DEPENDENCY, ERR_NETWORK, ERR_DISK, ERR_PERMISSION,
    ERR_STEAMCMD]

/-- Is a reported code drawn from the closed taxonomy? -/
def codeInTaxonomy : PyVal → Bool
  | .s v => ERROR_CLASSES.contains v
  | .n _ => false

/- ===== Derived definitions used by the verification ===== -/

/-- The byte total carried by a step result. -/
def stepTotal : StepResult → Nat
  | .success t => t
  | .failNoExn t _ => t
  | .failExn t _ => t

/-- The error code carried by a loop result, when it is an error. -/
def resCode : Except PyError Unit → Option String
  | .error e => some e.code
  | .ok _ => none

/-- An attempt that completes with exit code 1 and output free of the
success marker and of both error markers (the scenario of the spec's
retry-bound property). -/
def plainFail (a : AttemptOutcome) : Prop :=
  ∃ lines : List String, a = .ran lines 1 ∧
    strContains (attemptLog lines) SUCCESS_MARKER = false ∧
    strContains (attemptLog lines) "0x202" = false ∧
    strContains (attemptLog lines) "0x6" = false

/-- `last_error` after a plain exit-code-1 failure (source line 191). -/
def failMsg1 : String := "SteamCMD failed (Code 1)"

/-- An attempt that fails (not a success) with the disk marker in its
output and without the network marker (Scenario C of the spec). -/
def diskFail (a : AttemptOutcome) : Prop :=
  ∃ (lines : List String) (rc : Int), a = .ran lines rc ∧
    (rc == 0 && strContains (attemptLog lines) SUCCESS_MARKER) = false ∧
    strContains (attemptLog lines) "0x202" = false ∧
    strContains (attemptLog lines) "0x6" = true

/-- `str(OSError(ERR_DISK, ...))`, the `last_error` text after a
disk-marker failure (source lines 193 and 196). -/
def diskMsg : String := osErrorStr ERR_DISK "Disk Write Fail (0x6)"

/-- Concrete attempts: exit code 1, empty output, every attempt. -/
def attemptsPlainFail : Nat → AttemptOutcome := fun _ => .ran [] 1

/-- Concrete attempts: exit code 1 with the disk marker, every attempt. -/
def attemptsDisk : Nat → AttemptOutcome := fun _ => .ran ["0x6"] 1

/-- Concrete attempts: immediate success with marker and exit code 0. -/
def attemptsSucceed : Nat → AttemptOutcome := fun _ => .ran [SUCCESS_MARKER] 0

/-- Attempts placeholder for environments whose update never runs. -/
def attemptsUnused : Nat → AttemptOutcome := fun _ => .exn "unused"

/-- steamcmd output with one public branch carrying buildid 205. -/
def out4 : String :=
  "\"branches\" \x7b \"public\" \x7b \"buildid\" \"205\" \x7d \x7d"

/-- steamcmd output with a public branch (buildid 205) followed by a
beta branch (buildid 999): the two-stage match must pick 205. -/
def twoBranchesOut : String :=
  "\"branches\" \x7b \"public\" \x7b \"buildid\" \"205\" \x7d \"beta\" \x7b \"buildid\" \"999\" \x7d \x7d"

/-- A manifest whose buildid is 100. -/
def manifest100 : String := "\"buildid\" \"100\""

/-- steamcmd output whose public buildid is 100. -/
def query100 : String :=
  "\"branches\" \x7b \"public\" \x7b \"buildid\" \"100\" \x7d \x7d"

/-- Scenario A environment: local 100, remote 100, no force. -/
def envC7 : ExecEnv :=
  ⟨false, some manifest100, .ran 0 query100, none, attemptsUnused, none⟩

/-- Scenario D environment: remote query times out, no force. -/
def envC8 : ExecEnv := ⟨false, none, .exn, none, attemptsPlainFail, none⟩

/-- A manifest whose buildid is 205 (state after a fresh install). -/
def manifest205 : String := "\"buildid\" \"205\""

/-- Scenario B environment: no prior manifest, update succeeds on the
first attempt, manifest afterwards reads 205. -/
def envC9 : ExecEnv := ⟨true, none, .exn, none, attemptsSucceed, some manifest205⟩

/- ===== Helper lemmas ===== -/

theorem check_disk_space_ok (probe : Option Nat) :
    check_disk_space probe = .ok () := by
  cases probe with
  | none => rfl
  | some free =>
    show (match check_disk_space_body free with
      | .error _ => Except.ok () | .ok _ => Except.ok ()) = Except.ok ()
    cases check_disk_space_body free <;> rfl

theorem run_update_process_eq (probe : Option Nat)
    (attempts : Nat → AttemptOutcome) (t0 : Nat) :
    run_update_process probe attempts t0 = runLoop attempts MAX_RETRIES 1 t0 "" := by
  unfold run_update_process
  rw [check_disk_space_ok]

theorem consumeLine_le (t : Nat) (line : String) : t ≤ consumeLine t line := by
  unfold consumeLine
  split
  · cases searchProgressL line.toList with
    | none => exact Nat.le_refl t
    | some n =>
      by_cases h : n > t
      · simp only [if_pos h]; omega
      · simp only [if_neg h]
        exact Nat.le_refl t
  · exact Nat.le_refl t

theorem foldl_consume_le (l : List String) : ∀ t : Nat, t ≤ l.foldl consumeLine t := by
  induction l with
  | nil => intro t; exact Nat.le_refl t
  | cons a as ih =>
    intro t
    exact Nat.le_trans (consumeLine_le t a) (ih (consumeLine t a))

theorem attemptTotal_le (t : Nat) (lines : List String) : t ≤ attemptTotal t lines :=
  foldl_consume_le (lines.map stripLine) t

theorem runAttempt_total_le (t : Nat) (a : AttemptOutcome) :
    t ≤ stepTotal (runAttempt t a) := by
  cases a with
  | exn msg => exact Nat.le_refl t
  | ran lines rc =>
    show t ≤ stepTotal
      (if rc == 0 && strContains (attemptLog lines) SUCCESS_MARKER then
        StepResult.success (attemptTotal t lines)
      else if strContains (attemptLog lines) "0x202" then
        StepResult.failExn (attemptTotal t lines)
          (osErrorStr ERR_NETWORK "Rate Limit/Network (0x202)")
      else if strContains (attemptLog lines) "0x6" then
        StepResult.failExn (attemptTotal t lines)
          (osErrorStr ERR_DISK "Disk Write Fail (0x6)")
      else
        StepResult.failNoExn (attemptTotal t lines)
          ("SteamCMD failed (Code " ++ toString rc ++ ")"))
    split_ifs <;> exact attemptTotal_le t lines

theorem runLoop_total_le (attempts : Nat → AttemptOutcome) :
    ∀ (k i t : Nat) (le : String), t ≤ (runLoop attempts k i t le).total := by
  intro k
  induction k with
  | zero => intro i t le; exact Nat.le_refl t
  | succ k ih =>
    intro i t le
    have h1 := runAttempt_total_le t (attempts i)
    unfold runLoop
    cases hstep : runAttempt t (attempts i) with
    | success t2 =>
      rw [hstep] at h1
      exact h1
    | failNoExn t2 le2 =>
      rw [hstep] at h1
      exact Nat.le_trans h1 (ih (i + 1) t2 le2)
    | failExn t2 le2 =>
      rw [hstep] at h1
      exact Nat.le_trans h1 (ih (i + 1) t2 le2)

theorem runLoop_launch (attempts : Nat → AttemptOutcome) (k i t : Nat)
    (le : String) :
    Event.launch ∈ (runLoop attempts (k + 1) i t le).events := by
  unfold runLoop
  cases runAttempt t (attempts i) <;> exact List.mem_cons_self _ _

theorem runAttempt_plainFail {a : AttemptOutcome} (h : plainFail a) (t : Nat) :
    ∃ t2, runAttempt t a = .failNoExn t2 failMsg1 := by
  obtain ⟨lines, rfl, hm, h202, h6⟩ := h
  refine ⟨attemptTotal t lines, ?_⟩
  show (if (1 : Int) == 0 && strContains (attemptLog lines) SUCCESS_MARKER then
      StepResult.success (attemptTotal t lines)
    else if strContains (attemptLog lines) "0x202" then
      StepResult.failExn (attemptTotal t lines)
        (osErrorStr ERR_NETWORK "Rate Limit/Network (0x202)")
    else if strContains (attemptLog lines) "0x6" then
      StepResult.failExn (attemptTotal t lines)
        (osErrorStr ERR_DISK "Disk Write Fail (0x6)")
    else
      StepResult.failNoExn (attemptTotal t lines)
        ("SteamCMD failed (Code " ++ toString (1 : Int) ++ ")"))
      = .failNoExn (attemptTotal t lines) failMsg1
  rw [hm, h202, h6]
  rfl

theorem runLoop_plainFail (attempts : Nat → AttemptOutcome)
    (h : ∀ i, plainFail (attempts i)) :
    ∀ (k i t : Nat) (le : String),
      (runLoop attempts (k + 1) i t le).res = .error ⟨ERR_STEAMCMD, failMsg1⟩ ∧
      (runLoop attempts (k + 1) i t le).events = List.replicate (k + 1) .launch := by
  intro k
  induction k with
  | zero =>
    intro i t le
    obtain ⟨t2, hstep⟩ := runAttempt_plainFail (h i) t
    unfold runLoop
    rw [hstep]
    exact ⟨rfl, rfl⟩
  | succ k ih =>
    intro i t le
    obtain ⟨t2, hstep⟩ := runAttempt_plainFail (h i) t
    unfold runLoop
    rw [hstep]
    obtain ⟨ih1, ih2⟩ := ih (i + 1) t2 failMsg1
    refine ⟨ih1, ?_⟩
    show Event.launch :: (runLoop attempts (k + 1) (i + 1) t2 failMsg1).events
      = List.replicate (k + 1 + 1) .launch
    rw [ih2]
    rfl

theorem runAttempt_diskFail {a : AttemptOutcome} (h : diskFail a) (t : Nat) :
    ∃ t2, runAttempt t a = .failExn t2 diskMsg := by
  obtain ⟨lines, rc, rfl, hs, h202, h6⟩ := h
  refine ⟨attemptTotal t lines, ?_⟩
  show (if rc == 0 && strContains (attemptLog lines) SUCCESS_MARKER then
      StepResult.success (attemptTotal t lines)
    else if strContains (attemptLog lines) "0x202" then
      StepResult.failExn (attemptTotal t lines)
        (osErrorStr ERR_NETWORK "Rate Limit/Network (0x202)")
    else if strContains (attemptLog lines) "0x6" then
      StepResult.failExn (attemptTotal t lines)
        (osErrorStr ERR_DISK "Disk Write Fail (0x6)")
    else
      StepResult.failNoExn (attemptTotal t lines)
        ("SteamCMD failed (Code " ++ toString rc ++ ")"))
      = .failExn (attemptTotal t lines) diskMsg
  rw [hs, h202, h6]
  rfl

theorem runLoop_diskFail (attempts : Nat → AttemptOutcome)
    (h : ∀ i, diskFail (attempts i)) :
    ∀ (k i t : Nat) (le : String),
      (runLoop attempts (k + 1) i t le).res = .error ⟨ERR_STEAMCMD, diskMsg⟩ := by
  intro k
  induction k with
  | zero =>
    intro i t le
    obtain ⟨t2, hstep⟩ := runAttempt_diskFail (h i) t
    unfold runLoop
    rw [hstep]
    rfl
  | succ k ih =>
    intro i t le
    obtain ⟨t2, hstep⟩ := runAttempt_diskFail (h i) t
    unfold runLoop
    rw [hstep]
    exact ih (i + 1) t2 diskMsg

/- ===== Claim theorems ===== -/

/-- Claim C6: the reported total-bytes value is non-decreasing over the
sequence of consumed output lines across the whole invocation — a parsed
progress value replaces the stored value only if strictly larger — and
the value is never reset between retry attempts: an attempt sequence
started at `t0` ends at a total that is at least `t0`. -/
theorem download_total_monotone :
    (∀ (t : Nat) (line : String), t ≤ consumeLine t line) ∧
    (∀ (t : Nat) (l1 l2 : List String),
      List.foldl consumeLine t l1 ≤ List.foldl consumeLine t (l1 ++ l2)) ∧
    (∀ (probe : Option Nat) (attempts : Nat → AttemptOutcome) (t0 : Nat),
      t0 ≤ (run_update_process probe attempts t0).total) := by
  refine ⟨consumeLine_le, ?_, ?_⟩
  · intro t l1 l2
    rw [List.foldl_append]
    exact foldl_consume_le l2 _
  · intro probe attempts t0
    rw [run_update_process_eq]
    exact runLoop_total_le attempts MAX_RETRIES 1 t0 ""

/-- Claim C10: `get_local_version` returns the sentinel "0" when the
manifest file is absent or unreadable (both modelled by `none`) and when
its contents lack a matching buildid field; it is a total function, so
it never raises. -/
theorem get_local_version_safe :
    get_local_version none = "0" ∧
    (∀ contents : String, searchBuildidL contents.toList = none →
      get_local_version (some contents) = "0") := by
  refine ⟨rfl, fun contents h => ?_⟩
  show (match searchBuildidL contents.toList with
    | some ds => String.mk ds
    | none => "0") = "0"
  rw [h]

/-- Claim C10 witness: a manifest with no buildid field yields "0". -/
theorem get_local_version_safe_witness :
    get_local_version (some "WorldWidth") = "0" :=
  get_local_version_safe.2 "WorldWidth" rfl

/-- Claim C5 (code bug): an `OSError` raised by the operating system
itself carries `(errno, strerror)`, so `len(e.args) > 1` holds and the
numeric errno — not a member of the closed ErrorClass set — is emitted
as the JSON error code. Script-raised two-string errors do pass their
class through. -/
theorem os_errno_escapes_taxonomy :
    execute_error_payload [.n 20, .s "Not a directory"] "[Errno 20] Not a directory"
      = (.n 20, .s "Not a directory") ∧
    codeInTaxonomy (.n 20) = false ∧
    (∀ code msg strForm : String,
      execute_error_payload [.s code, .s msg] strForm = (.s code, .s msg)) :=
  ⟨rfl, rfl, fun _ _ _ => rfl⟩

/-- Claim C2 (code bug): with a reliable probe reporting 0 bytes free,
the try-block body of `_check_disk_space` does raise the Disk error the
claim demands, but the bare `except` wrapping it (source lines 88-89)
swallows that very error, so `_check_disk_space` returns normally and
`run_update_process` still launches the update subprocess. -/
theorem disk_check_swallowed :
    check_disk_space_body 0
      = .error ⟨ERR_DISK, "Insufficient disk space. Free: 0MB"⟩ ∧
    check_disk_space (some 0) = .ok () ∧
    Event.launch ∈ (run_update_process (some 0) attemptsPlainFail 0).events := by
  refine ⟨rfl, rfl, ?_⟩
  decide

/-- Claim C1 (amended): when every attempt fails with the disk marker
"0x6" in its output (and without the network marker), the error raised
after MAX_RETRIES is exhausted always has class ERR_STEAMCMD
(ExternalToolFailure); the last observed classified error survives only
as the stringified message `[Errno ERR_DISK] Disk Write Fail (0x6)`. -/
theorem exhausted_retries_error_class (attempts : Nat → AttemptOutcome)
    (h : ∀ i, diskFail (attempts i)) (probe : Option Nat) (t0 : Nat) :
    (run_update_process probe attempts t0).res =
      .error ⟨ERR_STEAMCMD, osErrorStr ERR_DISK "Disk Write Fail (0x6)"⟩ := by
  rw [run_update_process_eq, show MAX_RETRIES = 4 + 1 from rfl]
  exact runLoop_diskFail attempts h 4 1 t0 ""

/-- Claim C1 counterexample: with the disk marker in every attempt's
output, the class of the raised error is ERR_STEAMCMD, not ERR_DISK as
the claim states. -/
theorem disk_marker_class_counterexample :
    resCode (run_update_process none attemptsDisk 0).res = some ERR_STEAMCMD ∧
    ERR_STEAMCMD ≠ ERR_DISK :=
  ⟨rfl, by decide⟩

/-- Claim C1 witness: the amended theorem applied to the concrete
all-attempts-disk-marker schedule. -/
theorem exhausted_retries_error_class_witness :
    (run_update_process none attemptsDisk 0).res =
      .error ⟨ERR_STEAMCMD, osErrorStr ERR_DISK "Disk Write Fail (0x6)"⟩ :=
  exhausted_retries_error_class attemptsDisk
    (fun _ => ⟨["0x6"], 1, rfl, rfl, rfl, rfl⟩) none 0

/-- Claim C3 (amended): against a subprocess that always exits with code
1 and output free of the success marker and of both classified markers,
the installer performs exactly MAX_RETRIES launches and then raises
ERR_STEAMCMD (ExternalToolFailure) — but it never sleeps between these
attempts: the RETRY_DELAY sleep sits in the exception handler, which a
plain non-zero exit does not reach. -/
theorem retry_bound_plain_failure (attempts : Nat → AttemptOutcome)
    (h : ∀ i, plainFail (attempts i)) (probe : Option Nat) (t0 : Nat) :
    (run_update_process probe attempts t0).res
      = .error ⟨ERR_STEAMCMD, failMsg1⟩ ∧
    (run_update_process probe attempts t0).events
      = List.replicate MAX_RETRIES .launch ∧
    (run_update_process probe attempts t0).events.count
      (Event.sleep RETRY_DELAY) = 0 := by
  rw [run_update_process_eq, show MAX_RETRIES = 4 + 1 from rfl]
  obtain ⟨h1, h2⟩ := runLoop_plainFail attempts h 4 1 t0 ""
  refine ⟨h1, h2, ?_⟩
  rw [h2]
  decide

/-- Claim C3 counterexample: on the always-exit-1, marker-free schedule
the run makes 5 launches but 0 sleeps — not the MAX_RETRIES - 1 = 4
inter-attempt sleeps the claim states. -/
theorem retry_sleep_counterexample :
    (run_update_process none attemptsPlainFail 0).events.count
      (Event.sleep RETRY_DELAY) = 0 ∧
    (run_update_process none attemptsPlainFail 0).events.count Event.launch
      = MAX_RETRIES ∧
    (run_update_process none attemptsPlainFail 0).res
      = .error ⟨ERR_STEAMCMD, failMsg1⟩ ∧
    (run_update_process none attemptsPlainFail 0).events.count
      (Event.sleep RETRY_DELAY) ≠ MAX_RETRIES - 1 := by
  refine ⟨by decide, by decide, rfl, by decide⟩

/-- Claim C3 witness: the amended theorem applied to the concrete
always-exit-1 schedule. -/
theorem retry_bound_plain_failure_witness :
    (run_update_process none attemptsPlainFail 0).res
      = .error ⟨ERR_STEAMCMD, failMsg1⟩ ∧
    (run_update_process none attemptsPlainFail 0).events
      = List.replicate MAX_RETRIES .launch ∧
    (run_update_process none attemptsPlainFail 0).events.count
      (Event.sleep RETRY_DELAY) = 0 :=
  retry_bound_plain_failure attemptsPlainFail
    (fun _ => ⟨[], rfl, rfl, rfl, rfl⟩) none 0

/-- Claim C4 counterexample: the external tool exits with code 1 but its
output still parses, and `get_remote_version` returns the buildid rather
than Unknown — the claim says a non-zero exit yields Unknown. -/
theorem nonzero_exit_counterexample :
    get_remote_version (.ran 1 out4) = some "205" ∧ (1 : Int) ≠ 0 :=
  ⟨rfl, by decide⟩

/-- Claim C4 (amended): `get_remote_version` returns Unknown (`none`) on
a timeout or other exception and whenever the two-stage
public-branch/buildid pattern match fails; the exit code of a completed
run is ignored entirely (the call passes `check=False`), so a non-zero
exit with parseable output still yields the extracted buildid; otherwise
the buildid of the first public-branch block is returned, as the
two-branch concrete output demonstrates. -/
theorem get_remote_version_spec :
    get_remote_version .exn = none ∧
    (∀ (rc rc' : Int) (out : String),
      get_remote_version (.ran rc out) = get_remote_version (.ran rc' out)) ∧
    (∀ (rc : Int) (out : String), extract_public_buildid out = none →
      get_remote_version (.ran rc out) = none) ∧
    (∀ (rc : Int) (out b : String), extract_public_buildid out = some b →
      get_remote_version (.ran rc out) = some b) ∧
    get_remote_version (.ran 0 twoBranchesOut) = some "205" :=
  ⟨rfl, fun _ _ _ => rfl, fun _ _ h => h, fun _ _ _ h => h, rfl⟩

/-- Claim C4 witness: the amended theorem applied at exit code 7 and a
parseable output. -/
theorem get_remote_version_spec_witness :
    get_remote_version (.ran 7 out4) = some "205" :=
  get_remote_version_spec.2.2.2.1 7 out4 "205" rfl

/-- Claim C7: when the remote version equals the local one and force is
not set, `execute` launches no subprocess (empty event trace) and
reports state "up_to_date" with old equal to new and a zero byte
total. -/
theorem up_to_date_idempotent (env : ExecEnv) (hf : env.force = false)
    (hr : get_remote_version env.query
      = some (get_local_version env.manifestBefore)) :
    (execute env).2 = [] ∧
    (execute env).1 = .ok ⟨"up_to_date", get_local_version env.manifestBefore,
      get_local_version env.manifestBefore,
      pyOr (get_remote_version env.query) "unknown", 0⟩ := by
  have hsu : should_update_flag env.force (get_local_version env.manifestBefore)
      (get_remote_version env.query) = false := by
    rw [hf, hr]
    unfold should_update_flag
    simp
  unfold execute
  rw [hsu]
  exact ⟨rfl, rfl⟩

/-- Claim C7 witness: Scenario A, local = remote = "100", no force. -/
theorem up_to_date_idempotent_witness :
    (execute envC7).2 = [] ∧
    (execute envC7).1 = .ok ⟨"up_to_date",
      get_local_version envC7.manifestBefore,
      get_local_version envC7.manifestBefore,
      pyOr (get_remote_version envC7.query) "unknown", 0⟩ :=
  up_to_date_idempotent envC7 rfl rfl

/-- Claim C8: the update decision is true exactly when force is set, or
the remote version is Unknown, or local and remote differ; and whenever
the remote query yields Unknown, `execute` attempts an update — a
subprocess launch appears in its event trace — even with force unset. -/
theorem should_update_characterization :
    (∀ (f : Bool) (old : String) (r : Option String),
      should_update_flag f old r = true ↔
        (f = true ∨ r = none ∨ ∃ v, r = some v ∧ old ≠ v)) ∧
    (∀ env : ExecEnv, get_remote_version env.query = none →
      Event.launch ∈ (execute env).2) := by
  constructor
  · intro f old r
    cases f with
    | false =>
      cases r with
      | none => simp [should_update_flag]
      | some v => simp [should_update_flag, bne_iff_ne]
    | true => simp [should_update_flag]
  · intro env h
    have hsu : should_update_flag env.force (get_local_version env.manifestBefore)
        (get_remote_version env.query) = true := by
      rw [h]
      unfold should_update_flag
      cases env.force <;> simp
    unfold execute
    rw [hsu]
    have hl : Event.launch ∈ (run_update_process env.probe env.attempts 0).events := by
      rw [run_update_process_eq, show MAX_RETRIES = 4 + 1 from rfl]
      exact runLoop_launch env.attempts 4 1 0 ""
    cases hres : (run_update_process env.probe env.attempts 0).res with
    | error e => simpa using hl
    | ok u => simpa using hl

/-- Claim C8 witness: Scenario D, remote query times out, force unset. -/
theorem should_update_characterization_witness :
    Event.launch ∈ (execute envC8).2 :=
  should_update_characterization.2 envC8 rfl

/-- Claim C9: when an update runs and succeeds, the reported state is
"fresh_installed" exactly when the prior local version was the sentinel
"0" and "updated" exactly when it was not, and the new version is
re-read from the post-install manifest. -/
theorem lifecycle_state_after_update (env : ExecEnv)
    (hs : should_update_flag env.force (get_local_version env.manifestBefore)
      (get_remote_version env.query) = true)
    (hok : (run_update_process env.probe env.attempts 0).res = .ok ()) :
    ∃ o : SuccessOutcome, (execute env).1 = .ok o ∧
      (o.state = "fresh_installed" ↔ get_local_version env.manifestBefore = "0") ∧
      (o.state = "updated" ↔ get_local_version env.manifestBefore ≠ "0") ∧
      o.old_version = get_local_version env.manifestBefore ∧
      o.new_version = get_local_version env.manifestAfter := by
  unfold execute
  rw [hs, hok]
  refine ⟨_, rfl, ?_, ?_, rfl, rfl⟩
  · by_cases he : get_local_version env.manifestBefore = "0"
    · simp [he]
    · simp [he, beq_eq_false_iff_ne.mpr he]
  · by_cases he : get_local_version env.manifestBefore = "0"
    · simp [he]
    · simp [he, beq_eq_false_iff_ne.mpr he]

/-- Claim C9 witness: Scenario B, no prior manifest (local "0"), first
attempt succeeds, manifest afterwards reads buildid 205. -/
theorem lifecycle_state_after_update_witness :
    ∃ o : SuccessOutcome, (execute envC9).1 = .ok o ∧
      (o.state = "fresh_installed" ↔ get_local_version envC9.manifestBefore = "0") ∧
      (o.state = "updated" ↔ get_local_version envC9.manifestBefore ≠ "0") ∧
      o.old_version = get_local_version envC9.manifestBefore ∧
      o.new_version = get_local_version envC9.manifestAfter :=
  lifecycle_state_after_update envC9 rfl rfl
